import Mathlib

set_option maxHeartbeats 1000000

/- Shallow embedding of hypervisor/arch/x86/guest/hyperv.c (Hyper-V
   enlightenment emulation): per-VM state, fixed-point TSC math, the
   reference-TSC page publisher, the hypercall page emulator, the MSR
   dispatcher, the CPUID leaf provider and the lifecycle hooks.
   Machine integers are Nat with explicit reduction modulo 2^64 / 2^32
   where the C code's unsigned arithmetic wraps.  External collaborators
   (gpa2hva, rdtsc, exec_vmread64, get_vcpu_mode, get_tsc_khz, vcpu_id)
   are passed as explicit parameters. -/

def U64 : Nat := 2 ^ 64

def U32 : Nat := 2 ^ 32

def PAGE_SHIFT : Nat := 12

def PAGE_SIZE : Nat := 4096

/-- Modelled from the spec: the synthetic MSR addresses are declared in the
repository header asm/guest/hyperv.h, which is not among the provided source
files; the spec fixes them as the standard Hyper-V synthetic MSR addresses
in the 0x40000000 range. -/
def HV_X64_MSR_GUEST_OS_ID : Nat := 0x40000000

def HV_X64_MSR_HYPERCALL : Nat := 0x40000001

def HV_X64_MSR_VP_INDEX : Nat := 0x40000002

def HV_X64_MSR_TIME_REF_COUNT : Nat := 0x40000020

def HV_X64_MSR_REFERENCE_TSC : Nat := 0x40000021

def HV_X64_MSR_TSC_FREQUENCY : Nat := 0x40000022

def HV_X64_MSR_APIC_FREQUENCY : Nat := 0x40000023

/-- Modelled from the spec: the tagged-union bit layout of
union hyperv_hypercall_msr and union hyperv_ref_tsc_page_msr comes from the
header asm/guest/hyperv.h, which is not among the provided source files;
per the spec, `enabled` is the single low bit of the raw 64-bit value and
`gpfn` is the raw value right-shifted by PAGE_SHIFT bits. -/
def msr_enabled (v : Nat) : Nat := v % 2

/-- Modelled from the spec: gpfn field of the tagged MSR values, the raw
value shifted right by PAGE_SHIFT bits. -/
def msr_gpfn (v : Nat) : Nat := v / 2 ^ PAGE_SHIFT

/-- Effect on the raw 64-bit value of the bitfield store `x.enabled = 0`:
only the low bit is cleared, all other bits are kept. -/
def clear_enabled (v : Nat) : Nat := 2 * (v / 2)

/-- Per-VM Hyper-V state block (struct acrn_hyperv, fields as used by
hyperv.c): the three raw 64-bit MSR values and the scale/offset pair. -/
structure HypervVM where
  guest_os_id : Nat
  hypercall_page : Nat
  ref_tsc_page : Nat
  tsc_scale : Nat
  tsc_offset : Nat
  deriving DecidableEq, Repr

/-- Embedding of u64_shl64_div_u64: divq with rdx = a and rax = 0, i.e. the
quotient floor((a << 64) / divisor).  The hardware instruction faults when
the true quotient does not fit in 64 bits; that condition is captured
separately by shl64_div_overflows. -/
def u64_shl64_div_u64 (a divisor : Nat) : Nat := a * U64 / divisor

/-- The divide-fault condition of u64_shl64_div_u64: the mathematical
quotient does not fit in an unsigned 64-bit result. -/
def shl64_div_overflows (a divisor : Nat) : Prop := U64 ≤ a * U64 / divisor

instance (a divisor : Nat) : Decidable (shl64_div_overflows a divisor) :=
  inferInstanceAs (Decidable (U64 ≤ a * U64 / divisor))

/-- Embedding of u64_mul_u64_shr64: mulq, returning the high 64 bits of the
128-bit product. -/
def u64_mul_u64_shr64 (a b : Nat) : Nat := a * b / U64

/-- Unsigned 64-bit wrapping addition. -/
def u64_add (a b : Nat) : Nat := (a + b) % U64

/-- Unsigned 64-bit wrapping subtraction. -/
def u64_sub (a b : Nat) : Nat := (a % U64 + (U64 - b % U64)) % U64

/-- The guest-visible fields of struct HV_REFERENCE_TSC_PAGE
(tsc_sequence is a uint32_t; the reserved padding carries no state). -/
structure HV_REFERENCE_TSC_PAGE where
  tsc_sequence : Nat
  tsc_scale : Nat
  tsc_offset : Nat
  deriving DecidableEq, Repr

/-- Embedding of hyperv_setup_tsc_page.  The gpa2hva translation collaborator
is passed as transl: none models a failed translation, some p a successful
one with p the current page contents.  Returns the updated per-VM state and
the resulting page contents. -/
def hyperv_setup_tsc_page (vm : HypervVM) (val : Nat)
    (transl : Option HV_REFERENCE_TSC_PAGE) :
    HypervVM × Option HV_REFERENCE_TSC_PAGE :=
  let vm2 := { vm with ref_tsc_page := val }
  if msr_enabled val = 1 then
    match transl with
    | some p =>
        let tsc_seq := (p.tsc_sequence + 1) % U32
        let tsc_seq2 := if tsc_seq = 0xFFFFFFFF ∨ tsc_seq = 0 then 1 else tsc_seq
        (vm2, some { tsc_sequence := tsc_seq2, tsc_scale := vm.tsc_scale,
                     tsc_offset := vm.tsc_offset })
    | none => (vm2, none)
  else
    (vm2, transl)

/-- Embedding of hyperv_scale_tsc; the collaborator reads rdtsc() and
exec_vmread64(VMX_TSC_OFFSET_FULL) are passed as cycle and vmcsOff and are
added with unsigned 64-bit wraparound. -/
def hyperv_scale_tsc (cycle vmcsOff scale : Nat) : Nat :=
  u64_mul_u64_shr64 (u64_add cycle vmcsOff) scale

/-- Embedding of hyperv_get_ReferenceTime: the scaled virtual TSC minus the
per-VM tsc_offset, in unsigned 64-bit arithmetic. -/
def hyperv_get_ReferenceTime (vm : HypervVM) (cycle vmcsOff : Nat) : Nat :=
  u64_sub (hyperv_scale_tsc cycle vmcsOff vm.tsc_scale) vm.tsc_offset

/-- The 11-byte 32-bit-mode hypercall stub: mov eax, 2; mov edx, 0; ret. -/
def inst32 : List Nat := [0xb8, 0x02, 0x0, 0x0, 0x0, 0xba, 0x0, 0x0, 0x0, 0x0, 0xc3]

/-- The 8-byte 64-bit-mode hypercall stub: mov rax, 2; ret. -/
def inst64 : List Nat := [0x48, 0xc7, 0xc0, 0x02, 0x0, 0x0, 0x0, 0xc3]

/-- Byte-level model of memset(pg, v, n) on a guest page viewed as a map from
byte offset to byte value. -/
def memset (pg : Nat → Nat) (v n : Nat) : Nat → Nat :=
  fun i => if i < n then v else pg i

/-- Byte-level model of memcpy_s(pg, n, src, n) as used here (dmax equals the
copied length n). -/
def memcpy_s (pg : Nat → Nat) (n : Nat) (src : List Nat) : Nat → Nat :=
  fun i => if i < n then src.getD i 0 else pg i

/-- Embedding of hyperv_setup_hypercall_page: the CPU-mode collaborator
get_vcpu_mode is passed as mode64, the gpa2hva result as transl (none models
a failed translation).  Returns the hypercall page contents after the call. -/
def hyperv_setup_hypercall_page (mode64 : Bool) (val : Nat)
    (transl : Option (Nat → Nat)) : Option (Nat → Nat) :=
  if msr_enabled val ≠ 0 then
    match transl with
    | some pg =>
        let pg2 := memset pg 0 PAGE_SIZE
        let pg3 := if mode64 then memcpy_s pg2 8 inst64 else memcpy_s pg2 11 inst32
        some pg3
    | none => none
  else
    transl

/-- Result of a hyperv_wrmsr call: the int32_t return value, the updated
per-VM state, and the contents of the two translated guest pages. -/
structure WrResult where
  ret : Int
  vm : HypervVM
  tscPage : Option HV_REFERENCE_TSC_PAGE
  hcPage : Option (Nat → Nat)

/-- Embedding of hyperv_wrmsr.  Collaborators: mode64 is the vCPU execution
mode, tscPage and hcPage the gpa2hva translation results for the
reference-TSC page and hypercall page gpfns (none on translation failure). -/
def hyperv_wrmsr (mode64 : Bool) (tscPage : Option HV_REFERENCE_TSC_PAGE)
    (hcPage : Option (Nat → Nat)) (vm : HypervVM) (msr wval : Nat) : WrResult :=
  if msr = HV_X64_MSR_GUEST_OS_ID then
    let vm2 := { vm with guest_os_id := wval }
    let vm3 := if wval = 0 then
        { vm2 with hypercall_page := clear_enabled vm2.hypercall_page }
      else vm2
    ⟨0, vm3, tscPage, hcPage⟩
  else if msr = HV_X64_MSR_HYPERCALL then
    if vm.guest_os_id = 0 then
      ⟨0, vm, tscPage, hcPage⟩
    else
      let vm2 := { vm with hypercall_page := wval }
      ⟨0, vm2, tscPage, hyperv_setup_hypercall_page mode64 wval hcPage⟩
  else if msr = HV_X64_MSR_REFERENCE_TSC then
    let r := hyperv_setup_tsc_page vm wval tscPage
    ⟨0, r.1, r.2, hcPage⟩
  else
    ⟨-1, vm, tscPage, hcPage⟩

/-- Embedding of hyperv_rdmsr: vcpuId, cycle, vmcsOff and tscKhz are
collaborator reads; rval is the value held at the caller's output location
before the call, which the failure path leaves unchanged. -/
def hyperv_rdmsr (vm : HypervVM) (vcpuId cycle vmcsOff tscKhz : Nat)
    (msr rval : Nat) : Int × Nat :=
  if msr = HV_X64_MSR_GUEST_OS_ID then (0, vm.guest_os_id)
  else if msr = HV_X64_MSR_HYPERCALL then (0, vm.hypercall_page)
  else if msr = HV_X64_MSR_VP_INDEX then (0, vcpuId)
  else if msr = HV_X64_MSR_TIME_REF_COUNT then
    (0, hyperv_get_ReferenceTime vm cycle vmcsOff)
  else if msr = HV_X64_MSR_REFERENCE_TSC then (0, vm.ref_tsc_page)
  else if msr = HV_X64_MSR_TSC_FREQUENCY then (0, tscKhz * 1000 % U64)
  else if msr = HV_X64_MSR_APIC_FREQUENCY then (0, tscKhz * 1000 % U64)
  else (-1, rval)

/-- The MSR addresses recognized by the dispatcher's read path (the cases of
the switch in hyperv_rdmsr). -/
def isSyntheticMSR (msr : Nat) : Bool :=
  msr == HV_X64_MSR_GUEST_OS_ID || msr == HV_X64_MSR_HYPERCALL ||
  msr == HV_X64_MSR_VP_INDEX || msr == HV_X64_MSR_TIME_REF_COUNT ||
  msr == HV_X64_MSR_REFERENCE_TSC || msr == HV_X64_MSR_TSC_FREQUENCY ||
  msr == HV_X64_MSR_APIC_FREQUENCY

/-- Embedding of hyperv_init_time: tscKhz is get_tsc_khz(), cycle and
vmcsOff the collaborator reads inside hyperv_scale_tsc. -/
def hyperv_init_time (vm : HypervVM) (tscKhz cycle vmcsOff : Nat) : HypervVM :=
  let tsc_scale := u64_shl64_div_u64 10000 tscKhz
  let tsc_offset := hyperv_scale_tsc cycle vmcsOff tsc_scale
  { vm with tsc_scale := tsc_scale, tsc_offset := tsc_offset }

def CPUID3A_TIME_REF_COUNT_MSR : Nat := 2 ^ 1

def CPUID3A_HYPERCALL_MSR : Nat := 2 ^ 5

def CPUID3A_VP_INDEX_MSR : Nat := 2 ^ 6

def CPUID3A_REFERENCE_TSC_MSR : Nat := 2 ^ 9

def CPUID3A_ACCESS_FREQUENCY_MSRS : Nat := 2 ^ 11

def CPUID3D_FREQ_MSRS_AVAILABLE : Nat := 2 ^ 8

/-- struct vcpuid_entry, declared in a header outside the provided source
files; the fields are those hyperv.c reads and writes. -/
structure vcpuid_entry where
  leaf : Nat
  subleaf : Nat
  flags : Nat
  eax : Nat
  ebx : Nat
  ecx : Nat
  edx : Nat
  deriving DecidableEq, Repr

/-- Embedding of hyperv_init_vcpuid_entry; MAX_VCPUS_PER_VM is a build
configuration constant defined outside the provided source files and is
passed as maxVcpus. -/
def hyperv_init_vcpuid_entry (maxVcpus : Nat) (leaf subleaf flags : Nat)
    (entry : vcpuid_entry) : vcpuid_entry :=
  let e := { entry with leaf := leaf, subleaf := subleaf, flags := flags }
  if leaf = 0x40000001 then
    { e with eax := 0x31237648, ebx := 0, ecx := 0, edx := 0 }
  else if leaf = 0x40000002 then
    { e with eax := 0, ebx := 0, ecx := 0, edx := 0 }
  else if leaf = 0x40000003 then
    { e with
      eax := CPUID3A_HYPERCALL_MSR ||| CPUID3A_VP_INDEX_MSR |||
        CPUID3A_TIME_REF_COUNT_MSR ||| CPUID3A_REFERENCE_TSC_MSR |||
        CPUID3A_ACCESS_FREQUENCY_MSRS,
      ebx := 0, ecx := 0, edx := CPUID3D_FREQ_MSRS_AVAILABLE }
  else if leaf = 0x40000004 then
    { e with eax := 0, ebx := 0, ecx := 0, edx := 0 }
  else if leaf = 0x40000005 then
    { e with eax := maxVcpus, ebx := 0, ecx := 0, edx := 0 }
  else if leaf = 0x40000006 then
    { e with eax := 0, ebx := 0, ecx := 0, edx := 0 }
  else
    e

/-- Embedding of hyperv_page_destory: the bitfield stores clear only the
enabled bits of the two page MSRs, the guest_os_id store clears val64. -/
def hyperv_page_destory (vm : HypervVM) : HypervVM :=
  { vm with
    hypercall_page := clear_enabled vm.hypercall_page,
    guest_os_id := 0,
    ref_tsc_page := clear_enabled vm.ref_tsc_page }

/- ------------------------------------------------------------------ -/
/- Theorems                                                            -/
/- ------------------------------------------------------------------ -/

/-- C1: a REFERENCE_TSC MSR write with the enabled bit set and a
successfully translated gpfn writes the per-VM tsc_scale and tsc_offset
into the page and publishes a sequence number equal to the prior sequence
s plus one, except that 1 is substituted when s + 1 (as a 32-bit value)
would be 0 or 0xFFFFFFFF; consequently the published sequence is never 0
and never 0xFFFFFFFF. -/
theorem setup_tsc_page_publishes (vm : HypervVM) (val : Nat)
    (p : HV_REFERENCE_TSC_PAGE) (hen : msr_enabled val = 1)
    (hs : p.tsc_sequence < U32) :
    ∃ p2, (hyperv_setup_tsc_page vm val (some p)).2 = some p2 ∧
      p2.tsc_scale = vm.tsc_scale ∧ p2.tsc_offset = vm.tsc_offset ∧
      p2.tsc_sequence =
        (if (p.tsc_sequence + 1) % U32 = 0 ∨ (p.tsc_sequence + 1) % U32 = 0xFFFFFFFF
         then 1 else p.tsc_sequence + 1) ∧
      p2.tsc_sequence ≠ 0 ∧ p2.tsc_sequence ≠ 0xFFFFFFFF := by
  have h2 : (hyperv_setup_tsc_page vm val (some p)).2 =
      some { tsc_sequence :=
               if (p.tsc_sequence + 1) % U32 = 0xFFFFFFFF ∨ (p.tsc_sequence + 1) % U32 = 0
               then 1 else (p.tsc_sequence + 1) % U32,
             tsc_scale := vm.tsc_scale, tsc_offset := vm.tsc_offset } := by
    simp [hyperv_setup_tsc_page, hen]
  refine ⟨_, h2, rfl, rfl, ?_, ?_, ?_⟩
  · show (if (p.tsc_sequence + 1) % U32 = 0xFFFFFFFF ∨ (p.tsc_sequence + 1) % U32 = 0
          then 1 else (p.tsc_sequence + 1) % U32) =
         (if (p.tsc_sequence + 1) % U32 = 0 ∨ (p.tsc_sequence + 1) % U32 = 0xFFFFFFFF
          then 1 else p.tsc_sequence + 1)
    by_cases h0 : (p.tsc_sequence + 1) % U32 = 0
    · simp [h0]
    · by_cases hF : (p.tsc_sequence + 1) % U32 = 0xFFFFFFFF
      · simp [hF]
      · have hlt : p.tsc_sequence + 1 < U32 := by
          rcases Nat.lt_or_ge (p.tsc_sequence + 1) U32 with h | h
          · exact h
          · have heq : p.tsc_sequence + 1 = U32 := by omega
            rw [heq] at h0
            simp at h0
        simp [Nat.mod_eq_of_lt hlt, h0, hF]
  · show (if (p.tsc_sequence + 1) % U32 = 0xFFFFFFFF ∨ (p.tsc_sequence + 1) % U32 = 0
          then 1 else (p.tsc_sequence + 1) % U32) ≠ 0
    split
    · simp
    · rename_i h
      push_neg at h
      exact h.2
  · show (if (p.tsc_sequence + 1) % U32 = 0xFFFFFFFF ∨ (p.tsc_sequence + 1) % U32 = 0
          then 1 else (p.tsc_sequence + 1) % U32) ≠ 0xFFFFFFFF
    split
    · decide
    · rename_i h
      push_neg at h
      exact h.1

/-- C1 witness: instantiation at a concrete prior page with sequence 9. -/
theorem setup_tsc_page_publishes_witness :
    msr_enabled 1 = 1 ∧ (9 : Nat) < U32 ∧
    (∃ p2, (hyperv_setup_tsc_page ⟨0, 0, 0, 5, 7⟩ 1 (some ⟨9, 0, 0⟩)).2 = some p2 ∧
      p2.tsc_scale = 5 ∧ p2.tsc_offset = 7 ∧
      p2.tsc_sequence = (if (9 + 1) % U32 = 0 ∨ (9 + 1) % U32 = 0xFFFFFFFF
         then 1 else 9 + 1) ∧
      p2.tsc_sequence ≠ 0 ∧ p2.tsc_sequence ≠ 0xFFFFFFFF) :=
  ⟨by decide, by decide,
    setup_tsc_page_publishes ⟨0, 0, 0, 5, 7⟩ 1 ⟨9, 0, 0⟩ (by decide) (by decide)⟩

/-- C8: hyperv_page_destory clears guest_os_id and the enabled bits of the
hypercall page and reference-TSC page MSRs, and leaves tsc_scale,
tsc_offset and the stored gpfn bits of both page MSRs unchanged. -/
theorem page_destory_resets (vm : HypervVM) :
    (hyperv_page_destory vm).guest_os_id = 0 ∧
    msr_enabled (hyperv_page_destory vm).hypercall_page = 0 ∧
    msr_enabled (hyperv_page_destory vm).ref_tsc_page = 0 ∧
    (hyperv_page_destory vm).tsc_scale = vm.tsc_scale ∧
    (hyperv_page_destory vm).tsc_offset = vm.tsc_offset ∧
    msr_gpfn (hyperv_page_destory vm).hypercall_page = msr_gpfn vm.hypercall_page ∧
    msr_gpfn (hyperv_page_destory vm).ref_tsc_page = msr_gpfn vm.ref_tsc_page := by
  refine ⟨rfl, ?_, ?_, rfl, rfl, ?_, ?_⟩ <;>
    simp [hyperv_page_destory, msr_enabled, msr_gpfn, clear_enabled, PAGE_SHIFT] <;>
    omega

/-- C9 counterexample: hyperv_init_vcpuid_entry with the out-of-range leaf
0x40000000 does modify the caller's entry record (it stores the leaf,
subleaf and flags arguments unconditionally before the switch), so the
entry is not left entirely untouched. -/
theorem init_vcpuid_entry_not_untouched :
    hyperv_init_vcpuid_entry 8 0x40000000 0 0 ⟨0, 0, 0, 0, 0, 0, 0⟩ ≠
      ⟨0, 0, 0, 0, 0, 0, 0⟩ := by
  decide

/-- C9 amended: for every leaf outside 0x40000001..0x40000006,
hyperv_init_vcpuid_entry leaves the four output registers eax, ebx, ecx,
edx of the caller's entry untouched, but always stores the leaf, subleaf
and flags arguments into the entry. -/
theorem init_vcpuid_entry_out_of_range (maxVcpus leaf subleaf flags : Nat)
    (e : vcpuid_entry) (h : leaf < 0x40000001 ∨ 0x40000006 < leaf) :
    hyperv_init_vcpuid_entry maxVcpus leaf subleaf flags e =
      { e with leaf := leaf, subleaf := subleaf, flags := flags } := by
  unfold hyperv_init_vcpuid_entry
  split_ifs with h1 h2 h3 h4 h5 h6 <;> first
    | rfl
    | omega

/-- C9 amended witness: instantiation at the out-of-range leaf 7. -/
theorem init_vcpuid_entry_out_of_range_witness :
    ((7 : Nat) < 0x40000001 ∨ (0x40000006 : Nat) < 7) ∧
    hyperv_init_vcpuid_entry 8 7 1 2 ⟨0, 1, 2, 3, 4, 5, 6⟩ =
      ⟨7, 1, 2, 3, 4, 5, 6⟩ :=
  ⟨Or.inl (by decide),
    init_vcpuid_entry_out_of_range 8 7 1 2 ⟨0, 1, 2, 3, 4, 5, 6⟩ (Or.inl (by decide))⟩

/-- C10: reading an MSR address outside the recognized synthetic MSRs
returns the Unsupported-Register failure -1 and leaves the caller's output
location unchanged: the returned rval is exactly the value it held before
the call. -/
theorem rdmsr_unknown_preserves_rval (vm : HypervVM)
    (vcpuId cycle vmcsOff tscKhz msr rval : Nat)
    (h : isSyntheticMSR msr = false) :
    hyperv_rdmsr vm vcpuId cycle vmcsOff tscKhz msr rval = (-1, rval) := by
  unfold hyperv_rdmsr
  simp only [isSyntheticMSR, Bool.or_eq_false_iff, beq_eq_false_iff_ne, ne_eq] at h
  obtain ⟨⟨⟨⟨⟨⟨h1, h2⟩, h3⟩, h4⟩, h5⟩, h6⟩, h7⟩ := h
  simp [h1, h2, h3, h4, h5, h6, h7]

/-- C10 witness: instantiation at the unrecognized address 0x40000007 with
the output location initially holding 42. -/
theorem rdmsr_unknown_preserves_rval_witness :
    isSyntheticMSR 0x40000007 = false ∧
    hyperv_rdmsr ⟨1, 2, 3, 4, 5⟩ 0 6 7 8 0x40000007 42 = (-1, 42) :=
  ⟨by decide, rdmsr_unknown_preserves_rval ⟨1, 2, 3, 4, 5⟩ 0 6 7 8 0x40000007 42 (by decide)⟩

/-- C6: a write of any value v to the ReferenceTsc MSR stores the raw value
into the per-VM state unconditionally (for every enabled bit and every
translation outcome, including failure), returns success 0, and an
immediately following read of the ReferenceTsc MSR returns exactly v with
success. -/
theorem reference_tsc_write_readback (mode64 : Bool)
    (tscPage : Option HV_REFERENCE_TSC_PAGE) (hcPage : Option (Nat → Nat))
    (vm : HypervVM) (v vcpuId cycle vmcsOff tscKhz rval : Nat) :
    (hyperv_wrmsr mode64 tscPage hcPage vm HV_X64_MSR_REFERENCE_TSC v).ret = 0 ∧
    (hyperv_wrmsr mode64 tscPage hcPage vm HV_X64_MSR_REFERENCE_TSC v).vm.ref_tsc_page = v ∧
    hyperv_rdmsr (hyperv_wrmsr mode64 tscPage hcPage vm HV_X64_MSR_REFERENCE_TSC v).vm
      vcpuId cycle vmcsOff tscKhz HV_X64_MSR_REFERENCE_TSC rval = (0, v) := by
  have e1 : HV_X64_MSR_REFERENCE_TSC ≠ HV_X64_MSR_GUEST_OS_ID := by decide
  have e2 : HV_X64_MSR_REFERENCE_TSC ≠ HV_X64_MSR_HYPERCALL := by decide
  have e3 : HV_X64_MSR_REFERENCE_TSC ≠ HV_X64_MSR_VP_INDEX := by decide
  have e4 : HV_X64_MSR_REFERENCE_TSC ≠ HV_X64_MSR_TIME_REF_COUNT := by decide
  have hvm : (hyperv_wrmsr mode64 tscPage hcPage vm HV_X64_MSR_REFERENCE_TSC v).vm.ref_tsc_page = v := by
    simp only [hyperv_wrmsr, if_neg e1, if_neg e2, if_pos rfl]
    unfold hyperv_setup_tsc_page
    cases tscPage <;> split_ifs <;> simp
  refine ⟨?_, hvm, ?_⟩
  · simp [hyperv_wrmsr, if_neg e1, if_neg e2]
  · simp [hyperv_rdmsr, if_neg e1, if_neg e2, if_neg e3, if_neg e4, hvm]

/-- C4: writing 0 to the GuestOsId MSR stores 0 and clears
hypercall_page.enabled whatever its prior value; and every Hypercall MSR
write issued while guest_os_id is 0 is a no-op (the per-VM state and both
guest pages are unchanged) that returns success 0, not the
Unsupported-Register failure. -/
theorem guest_os_id_zero_gates_hypercall (mode64 : Bool)
    (tscPage : Option HV_REFERENCE_TSC_PAGE) (hcPage : Option (Nat → Nat))
    (vm : HypervVM) :
    ((hyperv_wrmsr mode64 tscPage hcPage vm HV_X64_MSR_GUEST_OS_ID 0).ret = 0 ∧
     (hyperv_wrmsr mode64 tscPage hcPage vm HV_X64_MSR_GUEST_OS_ID 0).vm.guest_os_id = 0 ∧
     msr_enabled (hyperv_wrmsr mode64 tscPage hcPage vm HV_X64_MSR_GUEST_OS_ID 0).vm.hypercall_page = 0) ∧
    (∀ (mode64b : Bool) (tscPage2 : Option HV_REFERENCE_TSC_PAGE)
       (hcPage2 : Option (Nat → Nat)) (vm2 : HypervVM) (wval : Nat),
      vm2.guest_os_id = 0 →
        (hyperv_wrmsr mode64b tscPage2 hcPage2 vm2 HV_X64_MSR_HYPERCALL wval).ret = 0 ∧
        (hyperv_wrmsr mode64b tscPage2 hcPage2 vm2 HV_X64_MSR_HYPERCALL wval).vm = vm2 ∧
        (hyperv_wrmsr mode64b tscPage2 hcPage2 vm2 HV_X64_MSR_HYPERCALL wval).tscPage = tscPage2 ∧
        (hyperv_wrmsr mode64b tscPage2 hcPage2 vm2 HV_X64_MSR_HYPERCALL wval).hcPage = hcPage2) := by
  constructor
  · refine ⟨?_, ?_, ?_⟩ <;>
      simp [hyperv_wrmsr, msr_enabled, clear_enabled, Nat.mul_mod_right]
  · intro mode64b tscPage2 hcPage2 vm2 wval hz
    have e1 : HV_X64_MSR_HYPERCALL ≠ HV_X64_MSR_GUEST_OS_ID := by decide
    simp [hyperv_wrmsr, if_neg e1, hz]

/-- C4 witness: instantiation with a previously enabled hypercall page and
then a gated Hypercall write on a state with guest_os_id 0. -/
theorem guest_os_id_zero_gates_hypercall_witness :
    ((hyperv_wrmsr true none none ⟨5, 3, 0, 0, 0⟩ HV_X64_MSR_GUEST_OS_ID 0).ret = 0 ∧
     (hyperv_wrmsr true none none ⟨5, 3, 0, 0, 0⟩ HV_X64_MSR_GUEST_OS_ID 0).vm.guest_os_id = 0 ∧
     msr_enabled (hyperv_wrmsr true none none ⟨5, 3, 0, 0, 0⟩ HV_X64_MSR_GUEST_OS_ID 0).vm.hypercall_page = 0) ∧
    ((hyperv_wrmsr false none none ⟨0, 3, 0, 0, 0⟩ HV_X64_MSR_HYPERCALL 9).ret = 0 ∧
     (hyperv_wrmsr false none none ⟨0, 3, 0, 0, 0⟩ HV_X64_MSR_HYPERCALL 9).vm = ⟨0, 3, 0, 0, 0⟩ ∧
     (hyperv_wrmsr false none none ⟨0, 3, 0, 0, 0⟩ HV_X64_MSR_HYPERCALL 9).tscPage = none ∧
     (hyperv_wrmsr false none none ⟨0, 3, 0, 0, 0⟩ HV_X64_MSR_HYPERCALL 9).hcPage = none) :=
  ⟨(guest_os_id_zero_gates_hypercall true none none ⟨5, 3, 0, 0, 0⟩).1,
   (guest_os_id_zero_gates_hypercall true none none ⟨5, 3, 0, 0, 0⟩).2
     false none none ⟨0, 3, 0, 0, 0⟩ 9 rfl⟩

/-- C5: hyperv_wrmsr returns success 0 exactly for the GuestOsId, Hypercall
and ReferenceTsc MSRs and the Unsupported-Register failure -1 for every
other address (including VpIndex, TimeRefCount, TscFrequency and
ApicFrequency); hyperv_rdmsr returns success 0 exactly for the recognized
synthetic MSR addresses and -1 for every other address. -/
theorem msr_dispatch_status (mode64 : Bool)
    (tscPage : Option HV_REFERENCE_TSC_PAGE) (hcPage : Option (Nat → Nat))
    (vm : HypervVM) (msr wval vcpuId cycle vmcsOff tscKhz rval : Nat) :
    ((hyperv_wrmsr mode64 tscPage hcPage vm msr wval).ret =
      if msr = HV_X64_MSR_GUEST_OS_ID ∨ msr = HV_X64_MSR_HYPERCALL ∨
         msr = HV_X64_MSR_REFERENCE_TSC then 0 else -1) ∧
    ((hyperv_rdmsr vm vcpuId cycle vmcsOff tscKhz msr rval).1 =
      if isSyntheticMSR msr then 0 else -1) := by
  constructor
  · unfold hyperv_wrmsr
    split_ifs with h1 h2 h3 h4 <;> simp_all
  · unfold hyperv_rdmsr isSyntheticMSR
    split_ifs with h1 h2 h3 h4 h5 h6 h7 <;> simp_all

/-- C7: a Hypercall-page setup with the enabled bit set and a successful
translation zeroes the full 4096-byte page and then writes at offset 0
exactly the 8-byte stub 48 c7 c0 02 00 00 00 c3 in 64-bit mode, else
exactly the 11-byte stub b8 02 00 00 00 ba 00 00 00 00 c3; every byte of
the rest of the page is zero. -/
theorem setup_hypercall_page_stub (mode64 : Bool) (val : Nat) (pg : Nat → Nat)
    (hen : msr_enabled val ≠ 0) :
    inst64 = [0x48, 0xc7, 0xc0, 0x02, 0x0, 0x0, 0x0, 0xc3] ∧
    inst32 = [0xb8, 0x02, 0x0, 0x0, 0x0, 0xba, 0x0, 0x0, 0x0, 0x0, 0xc3] ∧
    ∃ pg2, hyperv_setup_hypercall_page mode64 val (some pg) = some pg2 ∧
      (∀ i, i < (if mode64 then inst64.length else inst32.length) →
        pg2 i = (if mode64 then inst64 else inst32).getD i 0) ∧
      (∀ i, (if mode64 then inst64.length else inst32.length) ≤ i → i < PAGE_SIZE →
        pg2 i = 0) := by
  refine ⟨rfl, rfl, ?_⟩
  have h2 : hyperv_setup_hypercall_page mode64 val (some pg) =
      some (if mode64 then memcpy_s (memset pg 0 PAGE_SIZE) 8 inst64
            else memcpy_s (memset pg 0 PAGE_SIZE) 11 inst32) := by
    simp [hyperv_setup_hypercall_page, hen]
  refine ⟨_, h2, ?_, ?_⟩
  · intro i hi
    cases mode64 <;>
      simp_all [memcpy_s, memset, inst32, inst64]
  · intro i hi hp
    cases mode64 <;>
      simp_all [memcpy_s, memset, inst32, inst64]

/-- C7 witness: instantiation in 64-bit mode on a page initially holding 7
at every offset. -/
theorem setup_hypercall_page_stub_witness :
    msr_enabled 1 ≠ 0 ∧
    (inst64 = [0x48, 0xc7, 0xc0, 0x02, 0x0, 0x0, 0x0, 0xc3] ∧
     inst32 = [0xb8, 0x02, 0x0, 0x0, 0x0, 0xba, 0x0, 0x0, 0x0, 0x0, 0xc3] ∧
     ∃ pg2, hyperv_setup_hypercall_page true 1 (some (fun _ => 7)) = some pg2 ∧
       (∀ i, i < (if true then inst64.length else inst32.length) →
         pg2 i = (if true then inst64 else inst32).getD i 0) ∧
       (∀ i, (if true then inst64.length else inst32.length) ≤ i → i < PAGE_SIZE →
         pg2 i = 0)) :=
  ⟨by decide, setup_hypercall_page_stub true 1 (fun _ => 7) (by decide)⟩

/-- C2 counterexample: with the fixed pair tsc_scale = 2^63, tsc_offset = 1
and vmcs offset 0, the cycle counts 0 ≤ 2 give reference times 2^64 - 1 and
0: the unsigned 64-bit subtraction of tsc_offset wraps, so
hyperv_get_ReferenceTime is not monotonically non-decreasing in the cycle
count for every fixed scale/offset pair. -/
theorem get_reference_time_not_monotone :
    (0 : Nat) ≤ 2 ∧
    ¬ hyperv_get_ReferenceTime ⟨0, 0, 0, 2 ^ 63, 1⟩ 0 0 ≤
        hyperv_get_ReferenceTime ⟨0, 0, 0, 2 ^ 63, 1⟩ 2 0 := by
  constructor
  · decide
  · intro h
    rw [show hyperv_get_ReferenceTime ⟨0, 0, 0, 2 ^ 63, 1⟩ 0 0 = 2 ^ 64 - 1 from rfl,
        show hyperv_get_ReferenceTime ⟨0, 0, 0, 2 ^ 63, 1⟩ 2 0 = 0 from rfl] at h
    omega

/-- C2 amended: hyperv_get_ReferenceTime is monotonically non-decreasing in
the cycle count for a fixed scale/offset pair provided no 64-bit wraparound
intervenes: the virtual TSC sum c2 + vmcsOff stays below 2^64 and
tsc_offset does not exceed the scaled value at the smaller cycle count (as
arranged by hyperv_init_time, which captures the scaled value of the
initialization instant as tsc_offset). -/
theorem get_reference_time_monotone (vm : HypervVM) (c1 c2 vmcsOff : Nat)
    (hscale : vm.tsc_scale < U64)
    (hoff : vm.tsc_offset ≤ hyperv_scale_tsc c1 vmcsOff vm.tsc_scale)
    (h12 : c1 ≤ c2) (hnw : c2 + vmcsOff < U64) :
    hyperv_get_ReferenceTime vm c1 vmcsOff ≤ hyperv_get_ReferenceTime vm c2 vmcsOff := by
  have mono : hyperv_scale_tsc c1 vmcsOff vm.tsc_scale ≤
      hyperv_scale_tsc c2 vmcsOff vm.tsc_scale := by
    unfold hyperv_scale_tsc u64_mul_u64_shr64 u64_add
    have m1 : (c1 + vmcsOff) % U64 = c1 + vmcsOff := Nat.mod_eq_of_lt (by omega)
    have m2 : (c2 + vmcsOff) % U64 = c2 + vmcsOff := Nat.mod_eq_of_lt hnw
    rw [m1, m2]
    exact Nat.div_le_div_right (Nat.mul_le_mul_right _ (by omega))
  have hlt : hyperv_scale_tsc c2 vmcsOff vm.tsc_scale < U64 := by
    unfold hyperv_scale_tsc u64_mul_u64_shr64 u64_add
    rw [Nat.mod_eq_of_lt hnw, Nat.div_lt_iff_lt_mul (show 0 < U64 by decide)]
    calc (c2 + vmcsOff) * vm.tsc_scale ≤ (c2 + vmcsOff) * (U64 - 1) :=
          Nat.mul_le_mul_left _ (by omega)
    _ < U64 * U64 := by
        have : (c2 + vmcsOff) * (U64 - 1) ≤ (U64 - 1) * (U64 - 1) :=
          Nat.mul_le_mul_right _ (by omega)
        have h2 : (U64 - 1) * (U64 - 1) < U64 * U64 := by
          unfold U64
          norm_num
        omega
  have key : ∀ s1 s2 off : Nat, s1 ≤ s2 → s2 < U64 → off ≤ s1 →
      u64_sub s1 off ≤ u64_sub s2 off := by
    intro s1 s2 off h1 h2 h3
    unfold u64_sub U64 at *
    omega
  exact key _ _ _ mono hlt hoff

/-- C2 amended witness: instantiation at scale 2^63, offset 0, cycle counts
0 ≤ 1. -/
theorem get_reference_time_monotone_witness :
    (⟨0, 0, 0, 2 ^ 63, 0⟩ : HypervVM).tsc_scale < U64 ∧
    (⟨0, 0, 0, 2 ^ 63, 0⟩ : HypervVM).tsc_offset ≤ hyperv_scale_tsc 0 0 (2 ^ 63) ∧
    (0 : Nat) ≤ 1 ∧ 1 + 0 < U64 ∧
    hyperv_get_ReferenceTime ⟨0, 0, 0, 2 ^ 63, 0⟩ 0 0 ≤
      hyperv_get_ReferenceTime ⟨0, 0, 0, 2 ^ 63, 0⟩ 1 0 :=
  ⟨by decide, Nat.zero_le _, by decide, by decide,
   get_reference_time_monotone ⟨0, 0, 0, 2 ^ 63, 0⟩ 0 1 0 (by decide)
     (Nat.zero_le _) (by decide) (by decide)⟩

/-- C3 counterexample: tsc_khz = 1000 (a 1 MHz TSC) lies in the claimed
range 1000..10000000, yet u64_shl64_div_u64 10000 1000 overflows: the exact
quotient 10000 * 2^64 / 1000 = 10 * 2^64 does not fit in an unsigned
64-bit result, so the divq instruction would fault. -/
theorem shl64_div_overflows_in_claimed_range :
    (1000 : Nat) ≤ 1000 ∧ (1000 : Nat) ≤ 10000000 ∧
    shl64_div_overflows 10000 1000 := by
  refine ⟨Nat.le_refl _, by decide, ?_⟩
  show U64 ≤ 10000 * U64 / 1000
  unfold U64
  norm_num

/-- C3 amended: for every TSC frequency with tsc_khz strictly above 10000
(above 10 MHz) and at most 10000000 (10 GHz), u64_shl64_div_u64 10000
tsc_khz does not overflow, and for every 64-bit cycle count f_cycles the
value u64_mul_u64_shr64 f_cycles (u64_shl64_div_u64 10000 tsc_khz) differs
from the exact 100ns-unit value f_cycles * 10000000 / (tsc_khz * 1000)
(integer division) by at most 1. -/
theorem shl64_div_mul_shr64_approx (k c : Nat) (hk1 : 10000 < k)
    (hk2 : k ≤ 10000000) (hc : c < U64) :
    ¬ shl64_div_overflows 10000 k ∧
    u64_mul_u64_shr64 c (u64_shl64_div_u64 10000 k) ≤ c * 10000000 / (k * 1000) ∧
    c * 10000000 / (k * 1000) ≤ u64_mul_u64_shr64 c (u64_shl64_div_u64 10000 k) + 1 := by
  have hk0 : 0 < k := by omega
  have hU0 : 0 < U64 := by decide
  have hE : c * 10000000 / (k * 1000) = c * 10000 / k := by
    rw [show c * 10000000 = c * 10000 * 1000 by ring]
    exact Nat.mul_div_mul_right _ _ (by norm_num)
  refine ⟨?_, ?_, ?_⟩
  · intro hov
    have hlt : 10000 * U64 / k < U64 := by
      rw [Nat.div_lt_iff_lt_mul hk0]
      calc 10000 * U64 < k * U64 := by
            exact (Nat.mul_lt_mul_right hU0).2 hk1
      _ = U64 * k := by ring
    exact absurd hov (Nat.not_le_of_lt hlt)
  · rw [hE]
    unfold u64_mul_u64_shr64 u64_shl64_div_u64
    rw [Nat.le_div_iff_mul_le hk0]
    have h1 : c * (10000 * U64 / k) / U64 * U64 ≤ c * (10000 * U64 / k) :=
      Nat.div_mul_le_self _ _
    have h2 : 10000 * U64 / k * k ≤ 10000 * U64 := Nat.div_mul_le_self _ _
    have step : c * (10000 * U64 / k) / U64 * k * U64 ≤ c * 10000 * U64 := by
      calc c * (10000 * U64 / k) / U64 * k * U64
          = c * (10000 * U64 / k) / U64 * U64 * k := by ring
      _ ≤ c * (10000 * U64 / k) * k := Nat.mul_le_mul_right _ h1
      _ = c * (10000 * U64 / k * k) := by ring
      _ ≤ c * (10000 * U64) := Nat.mul_le_mul_left _ h2
      _ = c * 10000 * U64 := by ring
    exact Nat.le_of_mul_le_mul_right step hU0
  · rw [hE]
    unfold u64_mul_u64_shr64 u64_shl64_div_u64
    have hdm1 : k * (10000 * U64 / k) + 10000 * U64 % k = 10000 * U64 :=
      Nat.div_add_mod _ _
    have hr : 10000 * U64 % k < k := Nat.mod_lt _ hk0
    have hdm2 : U64 * (c * (10000 * U64 / k) / U64) + c * (10000 * U64 / k) % U64 =
        c * (10000 * U64 / k) := Nat.div_add_mod _ _
    have hr2 : c * (10000 * U64 / k) % U64 < U64 := Nat.mod_lt _ hU0
    have hEk : c * 10000 / k * k ≤ c * 10000 := Nat.div_mul_le_self _ _
    have t1 : k * (c * (10000 * U64 / k) % U64) < k * U64 :=
      mul_lt_mul_of_pos_left hr2 hk0
    have t2 : c * (10000 * U64 % k) ≤ U64 * k :=
      Nat.mul_le_mul (Nat.le_of_lt hc) (Nat.le_of_lt hr)
    have big : c * 10000 / k * (k * U64) <
        (c * (10000 * U64 / k) / U64 + 2) * (k * U64) := by
      calc c * 10000 / k * (k * U64) = c * 10000 / k * k * U64 := by ring
      _ ≤ c * 10000 * U64 := Nat.mul_le_mul_right _ hEk
      _ = c * (10000 * U64) := by ring
      _ = c * (k * (10000 * U64 / k) + 10000 * U64 % k) := by rw [hdm1]
      _ = k * (c * (10000 * U64 / k)) + c * (10000 * U64 % k) := by ring
      _ = k * (U64 * (c * (10000 * U64 / k) / U64) + c * (10000 * U64 / k) % U64) +
            c * (10000 * U64 % k) := by rw [hdm2]
      _ = k * U64 * (c * (10000 * U64 / k) / U64) +
            k * (c * (10000 * U64 / k) % U64) + c * (10000 * U64 % k) := by ring
      _ < k * U64 * (c * (10000 * U64 / k) / U64) + k * U64 + U64 * k := by
            linarith [t1, t2]
      _ = (c * (10000 * U64 / k) / U64 + 2) * (k * U64) := by ring
    have hlt2 : c * 10000 / k < c * (10000 * U64 / k) / U64 + 2 :=
      Nat.lt_of_mul_lt_mul_right big
    omega

/-- C3 amended witness: instantiation at tsc_khz = 2000000 (a 2 GHz TSC)
and f_cycles = 12345. -/
theorem shl64_div_mul_shr64_approx_witness :
    (10000 : Nat) < 2000000 ∧ (2000000 : Nat) ≤ 10000000 ∧ (12345 : Nat) < U64 ∧
    (¬ shl64_div_overflows 10000 2000000 ∧
     u64_mul_u64_shr64 12345 (u64_shl64_div_u64 10000 2000000) ≤
       12345 * 10000000 / (2000000 * 1000) ∧
     12345 * 10000000 / (2000000 * 1000) ≤
       u64_mul_u64_shr64 12345 (u64_shl64_div_u64 10000 2000000) + 1) :=
  ⟨by decide, by decide, by decide,
   shl64_div_mul_shr64_approx 2000000 12345 (by decide) (by decide) (by decide)⟩
